/-
Verification of the similarity-recommendation pipeline of `true_neutral`
(src/core/utils.py, src/true_neutral/true_neutral.py).

Shallow embedding conventions:
  * Python `str` is Lean `String`; optional arguments (`title=None`) are
    `Option String`; Python truthiness of an optional string is `truthy`.
  * Python exceptions become `Except` values.  The spec's error taxonomy maps
    the code's raised exceptions to typed errors: `KeyError` on a missing
    `Summary` key is `MissingFieldError`, the two distinct `ValueError`
    messages of `get_similar_books` are `InvalidQueryError` and
    `UnknownTitleError`.
  * The gensim Doc2Vec model is abstracted to its observable behaviour in
    this code base: training on a tagged corpus produces one document vector
    per tag, and `infer_vector` followed by `docvecs.most_similar` is a
    scoring function from query tokens and document tag to a similarity
    score, modelled as a rational (floats carry no other structure used
    here).  `most_similar([v], topn)` returns the `topn` best tags sorted by
    descending score, ties broken by ascending tag (numpy's stable argsort).
  * `pickle.dump`/`pickle.load` round-trip a value unchanged, so the file
    system is a map from path to the stored bundle.
-/
import Mathlib

namespace TrueNeutral

/-! ## Text processing (gensim.utils.simple_preprocess and str methods) -/

/-- Python whitespace characters, as recognised by `str.strip()`. -/
def isPySpace (c : Char) : Bool :=
  c = ' ' || c = '\t' || c = '\n' || c = '\r' || c = '\x0b' || c = '\x0c'

/-- Python `str.strip()`: drop leading and trailing whitespace. -/
def pyStrip (s : String) : String :=
  String.mk (((s.data.dropWhile isPySpace).reverse.dropWhile isPySpace).reverse)

/-- Python `text.replace("\n", " ")`: the pattern is a single character, so
this is a character map. -/
def collapseNewlines (s : String) : String :=
  String.mk (s.data.map (fun c => if c = '\n' then ' ' else c))

/-- A character matched by gensim's `PAT_ALPHABETIC` (`((?!\d)\w)+`): a word
character that is not a digit, i.e. a letter or underscore (ASCII suffices
for the texts considered here). -/
def isWordChar (c : Char) : Bool :=
  c.isAlpha || c = '_'

/-- Split a character list into the maximal runs of word characters,
mirroring `PAT_ALPHABETIC.finditer`.  `acc` holds the current run reversed. -/
def splitRunsAux : List Char → List Char → List (List Char)
  | [], acc => if acc.isEmpty then [] else [acc.reverse]
  | c :: cs, acc =>
    if isWordChar c then
      splitRunsAux cs (c :: acc)
    else if acc.isEmpty then
      splitRunsAux cs []
    else
      acc.reverse :: splitRunsAux cs []

def splitRuns (l : List Char) : List (List Char) :=
  splitRunsAux l []

/-- gensim.utils.simple_preprocess: lowercase the text, extract the
alphabetic runs, and keep tokens of length 2..15 that do not start with an
underscore. -/
def simplePreprocess (doc : String) : List String :=
  ((splitRuns (doc.data.map Char.toLower)).filter
    (fun t => 2 ≤ t.length && t.length ≤ 15 && t.head? ≠ some '_')).map String.mk

/-! ## Corpus reader (read_corpus) -/

/-- The only field of a raw book record that `read_corpus` touches is the
`Summary` key; `none` models a record whose dictionary lacks that key. -/
structure Record where
  summary? : Option String
deriving DecidableEq, Repr

instance : Inhabited Record := ⟨⟨some ""⟩⟩

/-- gensim.models.doc2vec.TaggedDocument. -/
structure TaggedDocument where
  words : List String
  tags : List Int
deriving DecidableEq, Repr

instance : Inhabited TaggedDocument := ⟨⟨[], []⟩⟩

/-- The typed error of the spec for a record without a `Summary` key
(the code raises `KeyError`). -/
inductive CorpusError where
  | missingField
deriving DecidableEq, Repr

/-- `read_corpus` with `tokens_only=False`, carrying the counter `ctr`
(initially `-1`, incremented before each yield so tags are `0, 1, 2, …`). -/
def read_corpus_aux : Int → List Record → Except CorpusError (List TaggedDocument)
  | _, [] => .ok []
  | ctr, b :: bs =>
    match b.summary? with
    | none => .error .missingField
    | some s =>
      let text := collapseNewlines (pyStrip s)
      let tokens := simplePreprocess text
      match read_corpus_aux (ctr + 1) bs with
      | .error e => .error e
      | .ok rest => .ok (⟨tokens, [ctr + 1]⟩ :: rest)

/-- `read_corpus(books)` (tagged mode), materialised into a list as the
callers do with `list(read_corpus(books))`. -/
def read_corpus (books : List Record) : Except CorpusError (List TaggedDocument) :=
  read_corpus_aux (-1) books

/-- `read_corpus(books, tokens_only=True)`: same normalisation and
tokenization, yielding only the token lists. -/
def read_corpus_tokens : List Record → Except CorpusError (List (List String))
  | [] => .ok []
  | b :: bs =>
    match b.summary? with
    | none => .error .missingField
    | some s =>
      let text := collapseNewlines (pyStrip s)
      let tokens := simplePreprocess text
      match read_corpus_tokens bs with
      | .error e => .error e
      | .ok rest => .ok (tokens :: rest)

/-! ## Data model (Book, ModelData) and trainer (train_model) -/

/-- Book metadata record (`Book` NamedTuple). -/
structure Book where
  title : String
  author : String
  genres : String
  summary : String
deriving DecidableEq, Repr

/-- One row of the training DataFrame: the four required columns
`Title`, `Author`, `Genres`, `Summary`. -/
structure Row where
  title : String
  author : String
  genres : String
  summary : String
deriving DecidableEq, Repr

instance : Inhabited Row := ⟨⟨"", "", "", ""⟩⟩

/-- `data.to_dict("records")` restricted to the field `read_corpus` uses:
every row of the DataFrame has the `Summary` key. -/
def recordOfRow (r : Row) : Record :=
  ⟨some r.summary⟩

/-- The trained Doc2Vec model, abstracted to the behaviour used by this
code: `docvecs` holds `numDocs` document vectors (one per tag of the
training corpus), and `infer_vector` composed with cosine similarity is a
score from query tokens and tag to a rational. -/
structure TrainedModel where
  numDocs : Nat
  score : List String → Nat → ℚ

/-- An untrained Doc2Vec configuration: what `build_vocab` + `train` produce
is a function of the tagged training corpus. -/
structure Doc2Vec where
  score : List TaggedDocument → List String → Nat → ℚ

/-- The `ModelData` NamedTuple. -/
structure ModelData where
  model : TrainedModel
  titles : List String
  authors : List String
  genres : List String
  summaries : List String
  train_corpus : List TaggedDocument
  test_corpus : List (List String)

/-- The spec's typed errors for `train_model`: an underlying training
failure (gensim rejects an empty corpus) or a propagated corpus error. -/
inductive TrainError where
  | trainingFailed
  | corpus (e : CorpusError)
deriving DecidableEq, Repr

/-- `train_model(model, data)`: build the tagged and tokens-only corpora,
train (one document vector per tagged document), and snapshot the four
metadata columns in row order. -/
def train_model (d2v : Doc2Vec) (rows : List Row) : Except TrainError ModelData :=
  let records := rows.map recordOfRow
  match read_corpus records with
  | .error e => .error (.corpus e)
  | .ok trainCorpus =>
    match read_corpus_tokens records with
    | .error e => .error (.corpus e)
    | .ok testCorpus =>
      if trainCorpus.isEmpty then .error .trainingFailed
      else
        .ok ⟨⟨trainCorpus.length, d2v.score trainCorpus⟩,
             rows.map Row.title, rows.map Row.author,
             rows.map Row.genres, rows.map Row.summary,
             trainCorpus, testCorpus⟩

/-! ## Similarity query (get_similar_books and its helper) -/

/-- The spec's typed errors for the query path: the two `ValueError`s of
`get_similar_books`. -/
inductive QueryError where
  | invalidQuery
  | unknownTitle
deriving DecidableEq, Repr

/-- Python truthiness of an optional string argument: `None` and `""` are
falsy. -/
def truthy : Option String → Bool
  | none => false
  | some s => !s.isEmpty

/-- Descending order on similarity hits: `a` precedes `b` when `a`'s score
is at least `b`'s. -/
def scoreGE (a b : Nat × ℚ) : Prop :=
  b.2 ≤ a.2

instance : DecidableRel scoreGE :=
  fun a b => inferInstanceAs (Decidable (b.2 ≤ a.2))

instance : IsTotal (Nat × ℚ) scoreGE :=
  ⟨fun a b => le_total b.2 a.2⟩

instance : IsTrans (Nat × ℚ) scoreGE :=
  ⟨fun _ _ _ hab hbc => le_trans hbc hab⟩

/-- `model.infer_vector(q)` followed by
`model.docvecs.most_similar([v], topn)`: score every document tag, sort by
descending score (a stable sort, so ties keep ascending tag order, matching
numpy's stable argsort), and take the best `topn`. -/
def mostSimilar (m : TrainedModel) (q : List String) (topn : Nat) : List (Nat × ℚ) :=
  ((((List.range m.numDocs).map (fun i => (i, m.score q i))).insertionSort
    scoreGE).take topn)

/-- Building the `(Book, score)` pair for one similarity hit `s`:
`(Book(titles[s[0]], authors[s[0]], genres[s[0]], summaries[s[0]]), s[1])`.
The tags produced by `mostSimilar` are always in range, so the `getD`
defaults are never hit on aligned bundles. -/
def mkBook (md : ModelData) (s : Nat × ℚ) : Book × ℚ :=
  (⟨md.titles.getD s.1 "", md.authors.getD s.1 "",
    md.genres.getD s.1 "", md.summaries.getD s.1 ""⟩, s.2)

/-- `_get_similar_books_helper`: tokenize the query summary with
`simple_preprocess`, rank by similarity with `topn = nsim + 1`, build the
book list, and drop the first entry (`books[1:]`). -/
def get_similar_books_helper (md : ModelData) (summary : String) (nsim : Nat) :
    List (Book × ℚ) :=
  let query_tokens := simplePreprocess summary
  let sims := mostSimilar md.model query_tokens (nsim + 1)
  let books := sims.map (mkBook md)
  books.drop 1

/-- The query-resolution phase of `get_similar_books` (lines 168-187):
choose `summary_` or raise one of the two `ValueError`s. -/
def resolveQuery (md : ModelData) (title summary : Option String) :
    Except QueryError String :=
  let titles := md.titles
  let summaries := md.summaries
  if truthy title && truthy summary then
    let t := title.getD ""
    if t ∈ titles then .ok (summaries.getD (List.indexOf t titles) "")
    else .ok (summary.getD "")
  else if truthy title then
    let t := title.getD ""
    if t ∈ titles then .ok (summaries.getD (List.indexOf t titles) "")
    else .error .unknownTitle
  else if truthy summary then .ok (summary.getD "")
  else .error .invalidQuery

/-- `get_similar_books(model_data, title, summary, nsim)`. -/
def get_similar_books (md : ModelData) (title summary : Option String)
    (nsim : Nat) : Except QueryError (List (Book × ℚ)) :=
  match resolveQuery md title summary with
  | .error e => .error e
  | .ok s => .ok (get_similar_books_helper md s nsim)

/-! ## Persistence (save_trained_model / load_trained_model) -/

/-- The spec's typed error for a failing load (missing file, corrupt
data). -/
inductive PersistenceError where
  | loadFailed
deriving DecidableEq, Repr

/-- The file system as a map from full path to stored pickled bundle:
`pickle.dump`/`pickle.load` round-trip the `ModelData` value unchanged. -/
def FileSystem := String → Option ModelData

/-- The full path `Path(folder) / fname` that `save_trained_model` writes
to. -/
def savePath (folder fname : String) : String :=
  folder ++ "/" ++ fname

/-- `save_trained_model(model_data, folder, fname)`: create the directory
as needed and write the pickled bundle at `folder/fname`. -/
def save_trained_model (md : ModelData) (folder fname : String)
    (fs : FileSystem) : FileSystem :=
  fun p => if p = savePath folder fname then some md else fs p

/-- `load_trained_model(fname)`: unpickle the bundle at the complete path,
failing if no valid artifact is there. -/
def load_trained_model (fname : String) (fs : FileSystem) :
    Except PersistenceError ModelData :=
  match fs fname with
  | none => .error .loadFailed
  | some md => .ok md

/-! ## Legacy module (src/true_neutral/true_neutral.py) -/

/-- Python runtime errors of the legacy load path. -/
inductive PyError where
  | ioError
  | nameError
deriving DecidableEq, Repr

/-- The legacy on-disk artifacts: a map from file name to whether a file is
present (their contents never matter, because the function below dies
before using them). -/
def LegacyFS := String → Bool

/-- The legacy `load_trained_model(fname_tag)` of
src/true_neutral/true_neutral.py: it loads the model from
`fname_tag + ".trainedmodel"` (an `IOError` if the file is missing), then
evaluates `open(fname + "_titles.pkl", "rb")` — but `fname` is not bound
anywhere in the function or module, so Python raises `NameError` before any
metadata file is read and the function can never return a bundle. -/
def legacy_load_trained_model (fname_tag : String) (fs : LegacyFS) :
    Except PyError ModelData :=
  if fs (fname_tag ++ ".trainedmodel") then
    .error .nameError
  else
    .error .ioError

instance : Inhabited ModelData :=
  ⟨⟨⟨0, fun _ _ => 0⟩, [], [], [], [], [], []⟩⟩

/-! ## Concrete example data (used by witnesses and counterexamples) -/

/-- A concrete Doc2Vec configuration. -/
def d2vW : Doc2Vec :=
  ⟨fun _ _ i => (i : ℚ)⟩

/-- A concrete two-row training table. -/
def rowsW : List Row :=
  [⟨"A", "ann", "fantasy", "aa bb"⟩, ⟨"B", "bob", "scifi", "cc dd"⟩]

/-- The bundle trained from `rowsW`. -/
def mdW : ModelData :=
  (train_model d2vW rowsW).toOption.getD default

/-- An empty file system. -/
def emptyFS : FileSystem :=
  fun _ => none

/-- A hand-built two-document bundle whose scoring ranks document 1 above
document 0 for every query. -/
def mdC3 : ModelData :=
  { model := ⟨2, fun _ i => if i = 1 then 10 else 5⟩,
    titles := ["A", "B"], authors := ["ann", "bob"],
    genres := ["fantasy", "scifi"], summaries := ["sa", "sb"],
    train_corpus := [⟨["sa"], [0]⟩, ⟨["sb"], [1]⟩],
    test_corpus := [["sa"], ["sb"]] }

/-- A hand-built two-document bundle whose scoring ranks document 0 above
document 1 for every query. -/
def mdC3w : ModelData :=
  { model := ⟨2, fun _ i => if i = 0 then 10 else 5⟩,
    titles := ["A", "B"], authors := ["ann", "bob"],
    genres := ["fantasy", "scifi"], summaries := ["sa", "sb"],
    train_corpus := [⟨["sa"], [0]⟩, ⟨["sb"], [1]⟩],
    test_corpus := [["sa"], ["sb"]] }

/-- A hand-built two-document bundle whose first title is the empty string
and whose scoring prefers document 1 exactly when the query tokens are
`["other"]`. -/
def mdC4 : ModelData :=
  { model := ⟨2, fun q i =>
      if q = ["other"] then (if i = 0 then 1 else 2)
      else (if i = 0 then 2 else 1)⟩,
    titles := ["", "B"], authors := ["ann", "bob"],
    genres := ["fantasy", "scifi"], summaries := ["recorded", "sb"],
    train_corpus := [⟨["recorded"], [0]⟩, ⟨["sb"], [1]⟩],
    test_corpus := [["recorded"], ["sb"]] }

/-- The index `titles.index(title)` that `get_similar_books` looks the
query's summary up at (the first occurrence of the title). -/
def queryIndex (md : ModelData) (t : String) : Nat :=
  List.indexOf t md.titles

/-- The `nsim + 1` ranked similarity hits that `get_similar_books`
retrieves for a title-lookup query on `t`. -/
def rankedSims (md : ModelData) (t : String) (nsim : Nat) : List (Nat × ℚ) :=
  mostSimilar md.model
    (simplePreprocess (md.summaries.getD (queryIndex md t) "")) (nsim + 1)

instance {ε α : Type} [DecidableEq ε] [DecidableEq α] :
    DecidableEq (Except ε α) := fun
  | .error e, .error e' =>
    if h : e = e' then .isTrue (congrArg Except.error h)
    else .isFalse (fun hc => h (Except.error.inj hc))
  | .error _, .ok _ => .isFalse (fun hc => Except.noConfusion hc)
  | .ok _, .error _ => .isFalse (fun hc => Except.noConfusion hc)
  | .ok a, .ok a' =>
    if h : a = a' then .isTrue (congrArg Except.ok h)
    else .isFalse (fun hc => h (Except.ok.inj hc))

/-! ## Shared lemmas about the corpus reader -/

/-- If some record lacks its `Summary` key, the tagged reader fails,
whatever the counter. -/
lemma read_corpus_aux_error (books : List Record) (ctr : Int)
    (h : ∃ b ∈ books, b.summary? = none) :
    read_corpus_aux ctr books = .error .missingField := by
  induction books generalizing ctr with
  | nil => obtain ⟨b, hb, _⟩ := h; cases hb
  | cons b bs ih =>
    obtain ⟨b', hb', hnone⟩ := h
    rcases List.mem_cons.mp hb' with rfl | hmem
    · simp [read_corpus_aux, hnone]
    · cases hsum : b.summary? with
      | none => simp [read_corpus_aux, hsum]
      | some s =>
        simp only [read_corpus_aux, hsum]
        rw [ih (ctr + 1) ⟨b', hmem, hnone⟩]

/-- Same for the tokens-only reader. -/
lemma read_corpus_tokens_error (books : List Record)
    (h : ∃ b ∈ books, b.summary? = none) :
    read_corpus_tokens books = .error .missingField := by
  induction books with
  | nil => obtain ⟨b, hb, _⟩ := h; cases hb
  | cons b bs ih =>
    obtain ⟨b', hb', hnone⟩ := h
    rcases List.mem_cons.mp hb' with rfl | hmem
    · simp [read_corpus_tokens, hnone]
    · cases hsum : b.summary? with
      | none => simp [read_corpus_tokens, hsum]
      | some s =>
        simp only [read_corpus_tokens, hsum]
        rw [ih ⟨b', hmem, hnone⟩]

/-- When every record has its `Summary` key, the tagged reader succeeds and
the `i`-th document holds the processed `i`-th summary with the single tag
`ctr + 1 + i`. -/
lemma read_corpus_aux_ok (books : List Record) (ctr : Int)
    (h : ∀ b ∈ books, b.summary? ≠ none) :
    ∃ docs, read_corpus_aux ctr books = .ok docs ∧
      docs.length = books.length ∧
      ∀ i, i < books.length →
        docs.getD i default =
          ⟨simplePreprocess (collapseNewlines (pyStrip
              (((books.getD i default).summary?).getD ""))),
           [ctr + 1 + i]⟩ := by
  induction books generalizing ctr with
  | nil => exact ⟨[], rfl, rfl, fun i hi => absurd hi (by simp)⟩
  | cons b bs ih =>
    cases hsum : b.summary? with
    | none => exact absurd hsum (h b (by simp))
    | some s =>
      obtain ⟨rest, hrest, hlen, hget⟩ :=
        ih (ctr + 1) (fun b' hb' => h b' (by simp [hb']))
      refine ⟨⟨simplePreprocess (collapseNewlines (pyStrip s)), [ctr + 1]⟩ :: rest,
        ?_, by simp [hlen], ?_⟩
      · simp [read_corpus_aux, hsum, hrest]
      · intro i hi
        cases i with
        | zero => simp [List.getD, hsum]
        | succ j =>
          have hj : j < bs.length := by simpa using hi
          have := hget j hj
          simp only [List.getD_cons_succ]
          rw [this]
          congr 2
          omega

/-- When every record has its `Summary` key, the tokens-only reader
succeeds. -/
lemma read_corpus_tokens_ok (books : List Record)
    (h : ∀ b ∈ books, b.summary? ≠ none) :
    ∃ toks, read_corpus_tokens books = .ok toks := by
  induction books with
  | nil => exact ⟨[], rfl⟩
  | cons b bs ih =>
    cases hsum : b.summary? with
    | none => exact absurd hsum (h b (by simp))
    | some s =>
      obtain ⟨rest, hrest⟩ := ih (fun b' hb' => h b' (by simp [hb']))
      exact ⟨simplePreprocess (collapseNewlines (pyStrip s)) :: rest,
        by simp [read_corpus_tokens, hsum, hrest]⟩

/-! ## Shared lemmas about the similarity ranking -/

/-- `most_similar` returns `min topn numDocs` hits. -/
lemma mostSimilar_length (m : TrainedModel) (q : List String) (topn : Nat) :
    (mostSimilar m q topn).length = min topn m.numDocs := by
  rw [mostSimilar, List.length_take, List.length_insertionSort,
    List.length_map, List.length_range]

/-- `most_similar` output is sorted by descending score. -/
lemma mostSimilar_pairwise (m : TrainedModel) (q : List String) (topn : Nat) :
    (mostSimilar m q topn).Pairwise (fun a b => b.2 ≤ a.2) := by
  have hsorted :
      (((List.range m.numDocs).map (fun i => (i, m.score q i))).insertionSort
        scoreGE).Pairwise scoreGE :=
    List.sorted_insertionSort scoreGE _
  exact hsorted.sublist (List.take_sublist topn _)

/-- The tags in the `most_similar` output are pairwise distinct. -/
lemma mostSimilar_nodup_fst (m : TrainedModel) (q : List String) (topn : Nat) :
    ((mostSimilar m q topn).map Prod.fst).Nodup := by
  have hperm : List.Perm
      ((((List.range m.numDocs).map (fun i => (i, m.score q i))).insertionSort
        scoreGE).map Prod.fst)
      (((List.range m.numDocs).map (fun i => (i, m.score q i))).map Prod.fst) :=
    (List.perm_insertionSort scoreGE _).map Prod.fst
  have hnd : (((List.range m.numDocs).map (fun i => (i, m.score q i))).map
      Prod.fst).Nodup := by
    rw [List.map_map]
    have hid : (Prod.fst ∘ fun i => (i, m.score q i)) = fun i : Nat => i := rfl
    rw [hid, List.map_id']
    exact List.nodup_range m.numDocs
  have hnd' := (hperm.nodup_iff).mpr hnd
  have hsub : ((mostSimilar m q topn).map Prod.fst).Sublist
      ((((List.range m.numDocs).map (fun i => (i, m.score q i))).insertionSort
        scoreGE).map Prod.fst) :=
    (List.take_sublist _ _).map Prod.fst
  exact hnd'.sublist hsub

/-! ## Claims -/

/-- C5: for every bundle, calling `get_similar_books` with neither a title
nor a summary fails with `InvalidQueryError`. -/
theorem get_similar_books_no_query (md : ModelData) (nsim : Nat) :
    get_similar_books md none none nsim = .error .invalidQuery := rfl

/-- C10: `get_similar_books` tests its optional arguments by Python string
truthiness, so an empty string is treated as absent: with `title=""` and a
non-empty summary the summary is used as query text without error, and with
`title=""` and `summary=""` the neither-provided `InvalidQueryError` is
raised even though both arguments were supplied. -/
theorem get_similar_books_empty_string_args (md : ModelData) (nsim : Nat) :
    (∀ s : String, s ≠ "" →
      get_similar_books md (some "") (some s) nsim =
        .ok (get_similar_books_helper md s nsim))
    ∧ get_similar_books md (some "") (some "") nsim = .error .invalidQuery := by
  constructor
  · intro s hs
    have hse : s.isEmpty = false := by
      rcases hempty : s.isEmpty with _ | _
      · rfl
      · exact absurd ((String.isEmpty_iff s).mp hempty) hs
    have h0 : "".isEmpty = true := rfl
    simp [get_similar_books, resolveQuery, truthy, hse, h0]
  · rfl

/-- Witness for C10 at a concrete bundle and summary. -/
theorem get_similar_books_empty_string_args_witness :
    get_similar_books mdC3 (some "") (some "query text") 3 =
      .ok (get_similar_books_helper mdC3 "query text" 3) :=
  (get_similar_books_empty_string_args mdC3 3).1 "query text" (by decide)

/-- C7: if some record lacks a `Summary` field, the corpus reader fails
with `MissingFieldError` (in both tagged and tokens-only modes) when that
record is reached. -/
theorem read_corpus_missing_summary (books : List Record) (i : Nat)
    (hi : i < books.length) (h : (books.getD i default).summary? = none) :
    read_corpus books = .error .missingField ∧
    read_corpus_tokens books = .error .missingField := by
  have hmem : books.getD i default ∈ books := by
    rw [List.getD_eq_getElem books default hi]
    exact List.getElem_mem hi
  exact ⟨read_corpus_aux_error books (-1) ⟨_, hmem, h⟩,
    read_corpus_tokens_error books ⟨_, hmem, h⟩⟩

/-- Witness for C7: a list whose second record has no `Summary` key. -/
theorem read_corpus_missing_summary_witness :
    read_corpus [⟨some "ok"⟩, ⟨none⟩] = .error .missingField ∧
    read_corpus_tokens [⟨some "ok"⟩, ⟨none⟩] = .error .missingField :=
  read_corpus_missing_summary [⟨some "ok"⟩, ⟨none⟩] 1 (by decide) (by decide)

/-- C9: the legacy `load_trained_model` of src/true_neutral/true_neutral.py
never returns a bundle: whenever the model file exists it raises `NameError`
on the unbound name `fname`, and otherwise the initial load fails, so the
old-style load path is unconditionally broken. -/
theorem legacy_load_never_returns (fname_tag : String) (fs : LegacyFS) :
    (∀ md, legacy_load_trained_model fname_tag fs ≠ .ok md)
    ∧ (fs (fname_tag ++ ".trainedmodel") = true →
        legacy_load_trained_model fname_tag fs = .error .nameError) := by
  constructor
  · intro md h
    unfold legacy_load_trained_model at h
    rcases hfs : fs (fname_tag ++ ".trainedmodel") with _ | _ <;>
      simp [hfs] at h
  · intro h
    simp [legacy_load_trained_model, h]

/-- Witness for C9 at a concrete tag and a file system holding the model
file. -/
theorem legacy_load_never_returns_witness :
    (legacy_load_trained_model "data/model" (fun _ => true) ≠ .ok default)
    ∧ legacy_load_trained_model "data/model" (fun _ => true) =
        .error .nameError :=
  ⟨(legacy_load_never_returns "data/model" (fun _ => true)).1 default,
   (legacy_load_never_returns "data/model" (fun _ => true)).2 rfl⟩

/-- C2: persistence is a behavioral round-trip: loading from the path that
`save_trained_model` wrote returns the saved bundle itself, so every
similarity query on the loaded bundle yields exactly the results of the
in-memory bundle (in particular for bundles produced by `train_model`). -/
theorem persistence_round_trip (md : ModelData) (folder fname : String)
    (fs : FileSystem) :
    load_trained_model (savePath folder fname)
        (save_trained_model md folder fname fs) = .ok md
    ∧ (∀ md', load_trained_model (savePath folder fname)
          (save_trained_model md folder fname fs) = .ok md' →
        ∀ title summary nsim,
          get_similar_books md' title summary nsim =
            get_similar_books md title summary nsim) := by
  have hload : load_trained_model (savePath folder fname)
      (save_trained_model md folder fname fs) = .ok md := by
    simp [load_trained_model, save_trained_model]
  refine ⟨hload, fun md' h' title summary nsim => ?_⟩
  rw [hload] at h'
  cases h'
  rfl

/-- Witness for C2: round trip of the trained bundle `mdW` through an empty
file system. -/
theorem persistence_round_trip_witness :
    load_trained_model (savePath "data" "model.pkl")
        (save_trained_model mdW "data" "model.pkl" emptyFS) = .ok mdW
    ∧ get_similar_books mdW (some "A") none 1 =
        get_similar_books mdW (some "A") none 1 :=
  ⟨(persistence_round_trip mdW "data" "model.pkl" emptyFS).1,
   (persistence_round_trip mdW "data" "model.pkl" emptyFS).2 mdW
     (persistence_round_trip mdW "data" "model.pkl" emptyFS).1
     (some "A") none 1⟩

/-- C1: every bundle returned by `train_model` is index-aligned: the `i`-th
tagged training document carries exactly the single tag `i` (sequential from
0 in row order, none reused), and `titles[i]`, `authors[i]`, `genres[i]`,
`summaries[i]` are the `Title`, `Author`, `Genres`, `Summary` of row `i`. -/
theorem train_model_index_aligned (d2v : Doc2Vec) (rows : List Row)
    (md : ModelData) (h : train_model d2v rows = .ok md) :
    md.train_corpus.length = rows.length
    ∧ md.titles.length = rows.length
    ∧ md.authors.length = rows.length
    ∧ md.genres.length = rows.length
    ∧ md.summaries.length = rows.length
    ∧ ∀ i, i < rows.length →
        (md.train_corpus.getD i default).tags = [(i : Int)]
        ∧ md.titles.getD i "" = (rows.getD i default).title
        ∧ md.authors.getD i "" = (rows.getD i default).author
        ∧ md.genres.getD i "" = (rows.getD i default).genres
        ∧ md.summaries.getD i "" = (rows.getD i default).summary := by
  have hall : ∀ b ∈ rows.map recordOfRow, b.summary? ≠ none := by
    intro b hb
    obtain ⟨r, _, rfl⟩ := List.mem_map.mp hb
    simp [recordOfRow]
  obtain ⟨docs, hdocs, hdlen, hdget⟩ :=
    read_corpus_aux_ok (rows.map recordOfRow) (-1) hall
  obtain ⟨toks, htoks⟩ := read_corpus_tokens_ok (rows.map recordOfRow) hall
  unfold train_model read_corpus at h
  simp only [hdocs, htoks] at h
  by_cases hempty : docs.isEmpty
  · rw [if_pos hempty] at h
    cases h
  · rw [if_neg hempty] at h
    cases h
    have hmaplen : (rows.map recordOfRow).length = rows.length :=
      List.length_map rows recordOfRow
    refine ⟨by simpa [hmaplen] using hdlen, by simp, by simp, by simp, by simp,
      fun i hi => ?_⟩
    have hi' : i < (rows.map recordOfRow).length := by simpa [hmaplen] using hi
    have hdoc := hdget i hi'
    refine ⟨?_, ?_, ?_, ?_, ?_⟩
    · show (docs.getD i default).tags = [(i : Int)]
      rw [hdoc]
      simp
    all_goals
      rw [List.getD_eq_getElem _ _ (by simpa using hi),
        List.getD_eq_getElem _ _ hi]
      simp

/-- Witness for C1 on the concrete two-row table `rowsW`. -/
theorem train_model_index_aligned_witness :
    (mdW.train_corpus.getD 1 default).tags = [(1 : Int)]
    ∧ mdW.titles.getD 1 "" = "B"
    ∧ mdW.summaries.getD 1 "" = "cc dd" := by
  have h := train_model_index_aligned d2vW rowsW mdW rfl
  obtain ⟨-, -, -, -, -, hpt⟩ := h
  obtain ⟨h1, h2, -, -, h5⟩ := hpt 1 (by decide)
  exact ⟨h1, h2, h5⟩

/-- C8: the corpus reader normalizes each summary by stripping it and
collapsing newlines to spaces, then tokenizes by lowercase word-splitting
with punctuation stripped; in particular "Hello,\nWorld!" tokenizes to
"hello" and "world". -/
theorem read_corpus_tokenization :
    (∀ (books : List Record) (docs : List TaggedDocument) (i : Nat)
        (s : String),
      read_corpus books = .ok docs → i < books.length →
      (books.getD i default).summary? = some s →
      (docs.getD i default).words =
        simplePreprocess (collapseNewlines (pyStrip s)))
    ∧ simplePreprocess (collapseNewlines (pyStrip "Hello,\nWorld!")) =
        ["hello", "world"] := by
  constructor
  · intro books docs i s hok hi hsum
    rw [show read_corpus books = read_corpus_aux (-1) books from rfl] at hok
    have hall : ∀ b ∈ books, b.summary? ≠ none := by
      intro b hb hnone
      rw [read_corpus_aux_error books (-1) ⟨b, hb, hnone⟩] at hok
      cases hok
    obtain ⟨docs', hdocs', hlen', hget'⟩ := read_corpus_aux_ok books (-1) hall
    rw [hdocs'] at hok
    cases hok
    rw [hget' i hi, hsum]
    rfl
  · decide

/-- Witness for C8 at the record whose summary is "Hello,\nWorld!". -/
theorem read_corpus_tokenization_witness :
    (([⟨["hello", "world"], [0]⟩] : List TaggedDocument).getD 0 default).words
      = simplePreprocess (collapseNewlines (pyStrip "Hello,\nWorld!")) :=
  read_corpus_tokenization.1 [⟨some "Hello,\nWorld!"⟩]
    [⟨["hello", "world"], [0]⟩] 0 "Hello,\nWorld!" rfl (by decide) rfl

/-- C6 counterexample: with the supplied title `""` — which is not found in
the bundle's title array — and no summary, `get_similar_books` raises
`InvalidQueryError`, not `UnknownTitleError` as the claim states, because
Python string truthiness routes the empty title to the neither-provided
branch. -/
theorem get_similar_books_empty_unknown_title_counterexample :
    "" ∉ mdC3.titles
    ∧ get_similar_books mdC3 (some "") none 10 = .error .invalidQuery := by
  decide

/-- C6 amended: for every bundle, calling `get_similar_books` with a
non-empty title that is not found in the bundle's title array and no truthy
summary fallback fails with `UnknownTitleError`. -/
theorem get_similar_books_unknown_title (md : ModelData) (t : String)
    (s : Option String) (nsim : Nat) (ht : t ≠ "") (hmem : t ∉ md.titles)
    (hs : truthy s = false) :
    get_similar_books md (some t) s nsim = .error .unknownTitle := by
  have hte : truthy (some t) = true := by
    rcases hempty : t.isEmpty with _ | _
    · simp [truthy, hempty]
    · exact absurd ((String.isEmpty_iff t).mp hempty) ht
  simp [get_similar_books, resolveQuery, hte, hs, hmem]

/-- Witness for amended C6 at a concrete unknown title. -/
theorem get_similar_books_unknown_title_witness :
    get_similar_books mdC3 (some "Z") none 10 = .error .unknownTitle :=
  get_similar_books_unknown_title mdC3 "Z" none 10 (by decide) (by decide) rfl

/-- C4 counterexample: the empty string is a title present in `mdC4`'s
title array, yet when it is supplied together with a summary the supplied
summary "other" — not the recorded summary "recorded" — is resolved as the
query text, and the similarity results are those of the supplied summary
(were "recorded" the query text, the helper would return the book titled
"B" instead). -/
theorem get_similar_books_query_resolution_counterexample :
    "" ∈ mdC4.titles
    ∧ mdC4.summaries.getD (List.indexOf "" mdC4.titles) "" = "recorded"
    ∧ resolveQuery mdC4 (some "") (some "other") = .ok "other"
    ∧ get_similar_books mdC4 (some "") (some "other") 1 =
        .ok [(⟨"", "ann", "fantasy", "recorded"⟩, 1)]
    ∧ get_similar_books_helper mdC4 "recorded" 1 =
        [(⟨"B", "bob", "scifi", "sb"⟩, 1)] := by
  decide

/-- C4 amended: `get_similar_books` resolves exactly one query text: a
non-empty supplied title that is present in the title array makes the
recorded summary at its first index the query text (whatever summary is
also supplied); a title absent from the array with a non-empty supplied
summary makes that summary the query text; the helper then tokenizes the
resolved text with `simple_preprocess`, the same tokenizer used for corpus
construction. -/
theorem get_similar_books_query_resolution (md : ModelData) (nsim : Nat) :
    (∀ (t : String) (s : Option String), t ≠ "" → t ∈ md.titles →
      get_similar_books md (some t) s nsim =
        .ok (get_similar_books_helper md
          (md.summaries.getD (queryIndex md t) "") nsim))
    ∧ (∀ (t s : String), t ∉ md.titles → s ≠ "" →
      get_similar_books md (some t) (some s) nsim =
        .ok (get_similar_books_helper md s nsim))
    ∧ (∀ q : String, get_similar_books_helper md q nsim =
        ((mostSimilar md.model (simplePreprocess q) (nsim + 1)).map
          (mkBook md)).drop 1) := by
  refine ⟨fun t s ht hmem => ?_, fun t s hmem hs => ?_, fun q => rfl⟩
  · have hte : t.isEmpty = false := by
      rcases hempty : t.isEmpty with _ | _
      · rfl
      · exact absurd ((String.isEmpty_iff t).mp hempty) ht
    rcases s with _ | s
    · simp [get_similar_books, resolveQuery, truthy, hte, hmem, queryIndex]
    · rcases hse : s.isEmpty with _ | _ <;>
        simp [get_similar_books, resolveQuery, truthy, hte, hse, hmem,
          queryIndex]
  · have hse : s.isEmpty = false := by
      rcases hempty : s.isEmpty with _ | _
      · rfl
      · exact absurd ((String.isEmpty_iff s).mp hempty) hs
    rcases hte : t.isEmpty with _ | _ <;>
      simp [get_similar_books, resolveQuery, truthy, hte, hse, hmem]

/-- Witness for amended C4: known-title lookup on `mdC3` ignores the
supplied summary, and an unknown title falls back to the supplied
summary. -/
theorem get_similar_books_query_resolution_witness :
    get_similar_books mdC3 (some "A") (some "ignored") 1 =
      .ok (get_similar_books_helper mdC3
        (mdC3.summaries.getD (queryIndex mdC3 "A") "") 1)
    ∧ get_similar_books mdC3 (some "Z") (some "fallback") 1 =
        .ok (get_similar_books_helper mdC3 "fallback" 1) :=
  ⟨(get_similar_books_query_resolution mdC3 1).1 "A" (some "ignored")
      (by decide) (by decide),
   (get_similar_books_query_resolution mdC3 1).2.1 "Z" "fallback"
      (by decide) (by decide)⟩

/-- C3 counterexample: `mdC3` has `nsim + 1 = 2` corpus entries and the
queried title "A" is present, and the call returns exactly `nsim = 1` pair
sorted by descending score — but the returned list consists of the queried
book "A" itself, because the code only drops the first ranked hit and
`mdC3`'s model ranks document 1 above the query's own document. -/
theorem get_similar_books_self_not_excluded_counterexample :
    (1 : Nat) + 1 ≤ mdC3.titles.length
    ∧ "A" ∈ mdC3.titles
    ∧ get_similar_books mdC3 (some "A") none 1 =
        .ok [(⟨"A", "ann", "fantasy", "sa"⟩, 5)] := by
  decide

/-- C3 amended: for every bundle whose model has one document vector per
title and at least `nsim + 1` corpus entries, querying a non-empty title
present in the title array retrieves the `nsim + 1` nearest neighbors,
drops the first, and returns exactly `nsim` `(Book, score)` pairs sorted by
descending score; the queried title's document is excluded provided the
query's own document is the top-ranked hit. -/
theorem get_similar_books_present_title (md : ModelData) (t : String)
    (nsim : Nat) (hwf : md.model.numDocs = md.titles.length)
    (hn : nsim + 1 ≤ md.titles.length) (ht : t ≠ "") (hmem : t ∈ md.titles) :
    get_similar_books md (some t) none nsim =
      .ok (((rankedSims md t nsim).map (mkBook md)).drop 1)
    ∧ (((rankedSims md t nsim).map (mkBook md)).drop 1).length = nsim
    ∧ (((rankedSims md t nsim).map (mkBook md)).drop 1).Pairwise
        (fun a b => b.2 ≤ a.2)
    ∧ ((rankedSims md t nsim).head?.map Prod.fst = some (queryIndex md t) →
        queryIndex md t ∉ ((rankedSims md t nsim).drop 1).map Prod.fst) := by
  have hte : t.isEmpty = false := by
    rcases hempty : t.isEmpty with _ | _
    · rfl
    · exact absurd ((String.isEmpty_iff t).mp hempty) ht
  have hlen : (rankedSims md t nsim).length = nsim + 1 := by
    rw [rankedSims, mostSimilar_length, hwf]
    omega
  refine ⟨?_, ?_, ?_, ?_⟩
  · simp [get_similar_books, resolveQuery, truthy, hte, hmem,
      get_similar_books_helper, rankedSims, queryIndex]
  · rw [List.length_drop, List.length_map, hlen]
    omega
  · have hp : (rankedSims md t nsim).Pairwise (fun a b => b.2 ≤ a.2) :=
      mostSimilar_pairwise md.model _ _
    have hpm : ((rankedSims md t nsim).map (mkBook md)).Pairwise
        (fun a b => b.2 ≤ a.2) := by
      rw [List.pairwise_map]
      exact hp.imp (fun h => h)
    exact hpm.sublist (List.drop_sublist 1 _)
  · intro hfirst
    have hnd : ((rankedSims md t nsim).map Prod.fst).Nodup :=
      mostSimilar_nodup_fst md.model _ _
    rcases hsims : rankedSims md t nsim with _ | ⟨x, rest⟩
    · rw [hsims] at hlen
      cases hlen
    · rw [hsims] at hfirst hnd
      simp only [List.head?_cons, Option.map_some] at hfirst
      have hx : x.1 = queryIndex md t := Option.some.inj hfirst
      rw [List.map_cons, List.nodup_cons, hx] at hnd
      simpa using hnd.1

/-- Witness for amended C3 on `mdC3w`, whose model ranks the query's own
document first. -/
theorem get_similar_books_present_title_witness :
    get_similar_books mdC3w (some "A") none 1 =
      .ok (((rankedSims mdC3w "A" 1).map (mkBook mdC3w)).drop 1)
    ∧ queryIndex mdC3w "A" ∉ ((rankedSims mdC3w "A" 1).drop 1).map Prod.fst :=
  ⟨(get_similar_books_present_title mdC3w "A" 1 (by decide) (by decide)
      (by decide) (by decide)).1,
   (get_similar_books_present_title mdC3w "A" 1 (by decide) (by decide)
      (by decide) (by decide)).2.2.2 (by decide)⟩

end TrueNeutral
